import Mathlib

/-!
Shallow embedding of `crates/terminal/src/terminal.rs` (terminal-tab
integration layer): working-directory resolution, the connected-view event
bridge, and the tab-lifecycle adapter of `TerminalView`.

Paths are modelled as strings; the filesystem and environment effects used
by the resolver (`shellexpand::full`, `Path::is_dir`, `dirs::home_dir`) are
abstracted into an `Env` record of pure functions, so every definition is
executable.
-/

namespace Terminal

/-- A worktree root entry (`project::Entry`): we only need whether it is a
directory, as queried by `re.is_dir()`. -/
structure RootEntry where
  is_dir : Bool
deriving DecidableEq, Repr

/-- Embeds `project::LocalWorktree`: its root entry (absent while loading) and its
absolute root path (`abs_path()`). -/
structure LocalWorktree where
  root_entry : Option RootEntry
  abs_path : String
deriving DecidableEq, Repr

/-- A worktree handle as read from the workspace; `as_local()` yields the
local worktree when the worktree is local, and `None` otherwise. -/
inductive Worktree
  | localWt (wt : LocalWorktree)
  | remoteWt
deriving DecidableEq, Repr

/-- Embeds `Worktree::as_local`. -/
def Worktree.as_local : Worktree → Option LocalWorktree
  | .localWt wt => some wt
  | .remoteWt => none

/-- The workspace/project state consumed by the resolver:
`workspace.worktrees(cx)` in stable enumeration order,
`project.active_entry()`, and `project.worktree_for_entry(entry_id, cx)`.
Entry ids are modelled as naturals. -/
structure WorkspaceState where
  worktrees : List Worktree
  active_entry : Option Nat
  worktree_for_entry : Nat → Option Worktree

/-- Embeds `get_path_from_wt`: the worktree's absolute root path, only if its root
entry exists and is a directory. -/
def get_path_from_wt (wt : LocalWorktree) : Option String :=
  (wt.root_entry.filter (fun re => re.is_dir)).map (fun _ => wt.abs_path)

/-- Embeds `first_project_directory`: first worktree in enumeration order, kept only
if local and directory-rooted. -/
def first_project_directory (w : WorkspaceState) : Option String :=
  ((w.worktrees.head?.bind Worktree.as_local).bind get_path_from_wt)

/-- Embeds `current_project_directory`: the active entry's worktree if any, else the
first worktree; kept only if local and directory-rooted. -/
def current_project_directory (w : WorkspaceState) : Option String :=
  ((((w.active_entry.bind w.worktree_for_entry).orElse
      (fun _ => w.worktrees.head?)).bind Worktree.as_local).bind get_path_from_wt)

/-- Embeds `settings::WorkingDirectory`: the four working-directory policies. -/
inductive WorkingDirectory
  | currentProjectDirectory
  | firstProjectDirectory
  | alwaysHome
  | always (directory : String)
deriving DecidableEq, Repr

/-- The ambient effects used by `get_working_directory`:
`shellexpand::full(..).ok()`, `Path::is_dir`, and `dirs::home_dir()`. -/
structure Env where
  shellexpand_full : String → Option String
  path_is_dir : String → Bool
  home_dir : Option String

/-- The policy `match` inside `get_working_directory` (the `res` binding):
one branch per policy, no home-directory fallback inside any branch. -/
def resolve_policy (env : Env) (wd_setting : WorkingDirectory)
    (w : WorkspaceState) : Option String :=
  match wd_setting with
  | .currentProjectDirectory => current_project_directory w
  | .firstProjectDirectory => first_project_directory w
  | .alwaysHome => none
  | .always directory =>
      (env.shellexpand_full directory).filter env.path_is_dir

/-- Embeds `get_working_directory`: the settings value defaults to
`CurrentProjectDirectory`; the policy result falls back to `home_dir()` via a
single `or_else` outside the policy `match`. -/
def get_working_directory (env : Env)
    (working_directory_setting : Option WorkingDirectory)
    (w : WorkspaceState) : Option String :=
  (resolve_policy env
      (working_directory_setting.getD WorkingDirectory.currentProjectDirectory)
      w).orElse (fun _ => env.home_dir)

/-- Embeds `connection::Event`, the typed event stream of the terminal model, as
consumed and emitted in `terminal.rs`. -/
inductive Event
  | titleChanged
  | closeTerminal
  | activate
  | wakeup
  | bell
deriving DecidableEq, Repr

/-- Modelled from the spec: the terminal model (`connection::Terminal`, built
by `TerminalBuilder::new`, whose source is outside this excerpt) exposes a
readable `title` and the `associated_directory` recorded at spawn time. -/
structure TerminalModel where
  title : String
  associated_directory : Option String
deriving DecidableEq, Repr

/-- Modelled from the spec: the outcome of `TerminalBuilder::new`
(`connection.rs` is outside this excerpt) — either the spawn succeeds,
yielding a terminal model, or it fails with a failure description. -/
inductive BuildOutcome
  | success (title : String)
  | failure (message : String)
deriving DecidableEq, Repr

/-- Modelled from the spec: `TerminalBuilder::new(working_directory, ..)` —
on success the constructed terminal model records the requested working
directory as its `associated_directory`. -/
def TerminalBuilder.new (working_directory : Option String) :
    BuildOutcome → Except String TerminalModel
  | .success title => .ok ⟨title, working_directory⟩
  | .failure message => .error message

/-- Embeds `ConnectedView`: the live-terminal view state — the terminal model
reference, the two tab flags, and the modal styling flag. -/
structure ConnectedView where
  terminal : TerminalModel
  has_new_content : Bool
  has_bell : Bool
  modal : Bool
deriving DecidableEq, Repr

/-- The result of the `cx.subscribe` closure in `ConnectedView::from_terminal`
handling one typed event: the updated view state, the events emitted upward
(`cx.emit`), and whether a re-render was requested (`cx.notify`). -/
structure HandlerResult where
  view : ConnectedView
  emitted : List Event
  notified : Bool
deriving DecidableEq, Repr

/-- The event-handling closure registered in `ConnectedView::from_terminal`:
`Wakeup` re-renders when focused, else sets `has_new_content` and emits
`TitleChanged`; `Bell` sets `has_bell` and emits `TitleChanged`; every other
event is re-emitted unchanged. -/
def handle_event (this : ConnectedView) (focused : Bool) (event : Event) :
    HandlerResult :=
  match event with
  | .wakeup =>
      if focused then ⟨this, [], true⟩
      else ⟨{ this with has_new_content := true }, [Event.titleChanged], false⟩
  | .bell => ⟨{ this with has_bell := true }, [Event.titleChanged], false⟩
  | e => ⟨this, [e], false⟩

/-- Embeds `ConnectedView::from_terminal`: the initial view state — `has_new_content`
starts `true`, `has_bell` starts `false`. -/
def ConnectedView.from_terminal (terminal : TerminalModel) (modal : Bool) :
    ConnectedView :=
  ⟨terminal, true, false, modal⟩

/-- Embeds `ConnectedView::on_focus` (the `View` impl): clears `has_new_content`,
touches nothing else. -/
def on_focus (this : ConnectedView) : ConnectedView :=
  { this with has_new_content := false }

/-- Embeds `ConnectedView::clear_bel`: clears `has_bell` and emits `TitleChanged`. -/
def clear_bel (this : ConnectedView) : ConnectedView × List Event :=
  ({ this with has_bell := false }, [Event.titleChanged])

/-- One state-changing operation on a connected view: regaining focus, the
explicit bell acknowledgement, or delivery of a typed terminal event while
the view is (or is not) focused. -/
inductive ViewStep
  | focus
  | clearBel
  | deliver (focused : Bool) (event : Event)
deriving DecidableEq, Repr

/-- Apply one operation to a connected view. -/
def ConnectedView.step (v : ConnectedView) : ViewStep → ConnectedView
  | .focus => on_focus v
  | .clearBel => (clear_bel v).1
  | .deliver focused event => (handle_event v focused event).view

/-- Apply a sequence of operations to a connected view. -/
def ConnectedView.run (v : ConnectedView) (steps : List ViewStep) :
    ConnectedView :=
  steps.foldl ConnectedView.step v

/-- The steps that record new content: delivery of `Wakeup` while the view is
not focused. -/
def sets_new_content : ViewStep → Bool
  | .deliver false .wakeup => true
  | _ => false

/-- The steps that are a focus regain. -/
def is_focus : ViewStep → Bool
  | .focus => true
  | _ => false

/-- Embeds `TerminalContent`: the two-variant content of a `TerminalView` — a
connected view or an error view holding the failure description. -/
inductive TerminalContent
  | connected (view : ConnectedView)
  | error (message : String)
deriving DecidableEq, Repr

/-- Which variant a content value is. -/
def TerminalContent.isConnected : TerminalContent → Bool
  | .connected _ => true
  | .error _ => false

/-- Embeds `TerminalView`: the tab item — modal flag plus the content variant chosen
at construction. -/
structure TerminalView where
  modal : Bool
  content : TerminalContent
deriving DecidableEq, Repr

/-- Embeds `TerminalView::new`: build the terminal; on success the content is
`Connected` over `ConnectedView::from_terminal`, on failure it is `Error`
holding the failure description. -/
def TerminalView.new (working_directory : Option String)
    (outcome : BuildOutcome) (modal : Bool) : TerminalView :=
  match TerminalBuilder.new working_directory outcome with
  | .ok terminal =>
      ⟨modal, .connected (ConnectedView.from_terminal terminal modal)⟩
  | .error e => ⟨modal, .error e⟩

/-- State-changing operations on a `TerminalView`: they act on the inner
connected view and leave an error view untouched; the content variant is
never reassigned. -/
def TerminalView.step (tv : TerminalView) (s : ViewStep) : TerminalView :=
  match tv.content with
  | .connected c => { tv with content := .connected (c.step s) }
  | .error _ => tv

/-- Apply a sequence of operations to a `TerminalView`. -/
def TerminalView.run (tv : TerminalView) (steps : List ViewStep) :
    TerminalView :=
  steps.foldl TerminalView.step tv

/-- Embeds `TerminalView::is_dirty` (the `Item` impl): `has_new_content` when
connected, `false` when error. -/
def TerminalView.is_dirty (tv : TerminalView) : Bool :=
  match tv.content with
  | .connected c => c.has_new_content
  | .error _ => false

/-- Embeds `TerminalView::has_conflict`: `has_bell` when connected, `false` when
error. -/
def TerminalView.has_conflict (tv : TerminalView) : Bool :=
  match tv.content with
  | .connected c => c.has_bell
  | .error _ => false

/-- Embeds `TerminalView::clone_on_split`: when connected, spawn a new view at the
original terminal's `associated_directory` (never re-resolved from workspace
state); when error, `None`. The fresh spawn has its own build outcome. -/
def TerminalView.clone_on_split (tv : TerminalView) (outcome : BuildOutcome) :
    Option TerminalView :=
  match tv.content with
  | .connected c =>
      some (TerminalView.new c.terminal.associated_directory outcome false)
  | .error _ => none

/-- The result of a host-facing task-returning operation: it either completes
with `Ok` or aborts with a fatal `unreachable!` contract violation. -/
inductive TaskResult
  | ok
  | unreachableViolation (message : String)
deriving DecidableEq, Repr

/-- Embeds `TerminalView::save`: `unreachable!("save should not have been called")`. -/
def TerminalView.save (_tv : TerminalView) : TaskResult :=
  .unreachableViolation "save should not have been called"

/-- Embeds `TerminalView::save_as`:
`unreachable!("save_as should not have been called")`. -/
def TerminalView.save_as (_tv : TerminalView) : TaskResult :=
  .unreachableViolation "save_as should not have been called"

/-- Embeds `TerminalView::reload`: `Task::ready(Ok(()))`. -/
def TerminalView.reload (_tv : TerminalView) : TaskResult := .ok

/-- Embeds `TerminalView::is_singleton`: always `false`. -/
def TerminalView.is_singleton (_tv : TerminalView) : Bool := false

/-- Embeds `TerminalView::can_save`: always `false`. -/
def TerminalView.can_save (_tv : TerminalView) : Bool := false

/-! Concrete workspace states used in the scenario claims and witnesses. -/

/-- Directory-rooted worktree at `/root1/`. -/
def wt_root1 : Worktree := .localWt ⟨some ⟨true⟩, "/root1/"⟩

/-- File-rooted worktree at `/root2.txt`. -/
def wt_root2_file : Worktree := .localWt ⟨some ⟨false⟩, "/root2.txt"⟩

/-- Directory-rooted worktree at `/root2/`. -/
def wt_root2_dir : Worktree := .localWt ⟨some ⟨true⟩, "/root2/"⟩

/-- Workspace: `/root1/` created first, file `/root2.txt` second with the
active entry (id 2) inside it. -/
def ws_file_active : WorkspaceState :=
  ⟨[wt_root1, wt_root2_file], some 2,
    fun id => if id = 2 then some wt_root2_file else none⟩

/-- Workspace: `/root1/` created first, directory `/root2/` second with the
active entry (id 2) inside it. -/
def ws_dir_active : WorkspaceState :=
  ⟨[wt_root1, wt_root2_dir], some 2,
    fun id => if id = 2 then some wt_root2_dir else none⟩

/-- Empty workspace: no worktrees, no active entry. -/
def ws0 : WorkspaceState := ⟨[], none, fun _ => none⟩

/-- An environment whose home directory is `/home/user`. -/
def env0 : Env := ⟨fun s => some s, fun _ => false, some "/home/user"⟩

/-- An environment where expansion is the identity and exactly `/tmp` is an
existing directory. -/
def env_exp : Env := ⟨fun s => some s, fun s => s == "/tmp", none⟩

/-- A file-rooted worktree is rejected by `get_path_from_wt`, never reduced to
its parent directory. -/
lemma get_path_from_wt_file (lw : LocalWorktree) (e : RootEntry)
    (hre : lw.root_entry = some e) (hdir : e.is_dir = false) :
    get_path_from_wt lw = none := by
  simp [get_path_from_wt, hre, Option.filter, hdir]

/-- C1: for every policy and workspace state, if the policy step of
`get_working_directory` yields `None` the result is the home directory; the
policy step never consults the home directory (so the substitution is not
inside any policy branch), and the resolver is exactly the policy step
followed by one home-directory fallback. -/
theorem home_fallback_once (env : Env) (wds : Option WorkingDirectory)
    (w : WorkspaceState)
    (h : resolve_policy env
        (wds.getD WorkingDirectory.currentProjectDirectory) w = none) :
    get_working_directory env wds w = env.home_dir ∧
    (∀ env2 : Env, env2.shellexpand_full = env.shellexpand_full →
      env2.path_is_dir = env.path_is_dir →
      ∀ p : WorkingDirectory, ∀ w2 : WorkspaceState,
        resolve_policy env2 p w2 = resolve_policy env p w2) ∧
    (∀ wds2 : Option WorkingDirectory, ∀ w2 : WorkspaceState,
      get_working_directory env wds2 w2 =
        (resolve_policy env
            (wds2.getD WorkingDirectory.currentProjectDirectory) w2).orElse
          (fun _ => env.home_dir)) := by
  refine ⟨?_, ?_, fun _ _ => rfl⟩
  · unfold get_working_directory
    rw [h]
    rfl
  · intro env2 hse hpd p w2
    cases p <;> simp [resolve_policy, hse, hpd]

/-- C1 witness: with the `AlwaysHome` policy on the empty workspace, the
policy step yields `None` and the resolver returns the home directory. -/
theorem home_fallback_once_witness :
    resolve_policy env0
      ((some WorkingDirectory.alwaysHome).getD
        WorkingDirectory.currentProjectDirectory) ws0 = none ∧
    get_working_directory env0 (some WorkingDirectory.alwaysHome) ws0 =
      some "/home/user" :=
  ⟨rfl,
    (home_fallback_once env0 (some WorkingDirectory.alwaysHome) ws0
        rfl).1.trans rfl⟩

/-- C2: with `/root1/` first and file `/root2.txt` second and active,
`current_project_directory` is `None` and `first_project_directory` is
`/root1/`; with directories `/root1/` first and `/root2/` second and active,
`current_project_directory` is `/root2/` and `first_project_directory` is
`/root1/`. -/
theorem policy_independence_scenarios :
    current_project_directory ws_file_active = none ∧
    first_project_directory ws_file_active = some "/root1/" ∧
    current_project_directory ws_dir_active = some "/root2/" ∧
    first_project_directory ws_dir_active = some "/root1/" :=
  ⟨rfl, rfl, rfl, rfl⟩

/-- C3: in a workspace with no worktrees (with entry lookups consistent with
the worktree list), and in a workspace whose only worktree is file-rooted,
both `current_project_directory` and `first_project_directory` return `None`
whatever the active entry; a file-rooted worktree is rejected outright by
`get_path_from_wt`. -/
theorem no_worktree_or_file_root_yields_none (w : WorkspaceState)
    (hwf : ∀ id wt, w.worktree_for_entry id = some wt → wt ∈ w.worktrees) :
    (w.worktrees = [] →
      current_project_directory w = none ∧
      first_project_directory w = none) ∧
    (∀ lw e, w.worktrees = [Worktree.localWt lw] → lw.root_entry = some e →
      e.is_dir = false →
      current_project_directory w = none ∧
      first_project_directory w = none) ∧
    (∀ lw e, (lw : LocalWorktree).root_entry = some e →
      (e : RootEntry).is_dir = false → get_path_from_wt lw = none) := by
  refine ⟨?_, ?_, fun lw e hre hdir => get_path_from_wt_file lw e hre hdir⟩
  · intro hempty
    have hbind : w.active_entry.bind w.worktree_for_entry = none := by
      cases ha : w.active_entry with
      | none => rfl
      | some id =>
        show w.worktree_for_entry id = none
        cases hb : w.worktree_for_entry id with
        | none => rfl
        | some wt => exact absurd (hwf id wt hb) (by simp [hempty])
    constructor
    · unfold current_project_directory
      rw [hbind, hempty]
      rfl
    · unfold first_project_directory
      rw [hempty]
      rfl
  · intro lw e hsing hre hdir
    have hpath : get_path_from_wt lw = none := get_path_from_wt_file lw e hre hdir
    have hcases : w.active_entry.bind w.worktree_for_entry = none ∨
        w.active_entry.bind w.worktree_for_entry = some (Worktree.localWt lw) := by
      cases ha : w.active_entry with
      | none => exact Or.inl rfl
      | some id =>
        cases hb : w.worktree_for_entry id with
        | none => exact Or.inl (by show w.worktree_for_entry id = none; exact hb)
        | some wt =>
          have hmem := hwf id wt hb
          rw [hsing, List.mem_singleton] at hmem
          exact Or.inr (by show w.worktree_for_entry id = some _; rw [hb, hmem])
    constructor
    · unfold current_project_directory
      rcases hcases with hc | hc
      · rw [hc, hsing]
        show get_path_from_wt lw = none
        exact hpath
      · rw [hc]
        show get_path_from_wt lw = none
        exact hpath
    · unfold first_project_directory
      rw [hsing]
      show get_path_from_wt lw = none
      exact hpath

/-- C3 witness: the empty workspace resolves to `None` under both project
policies. -/
theorem no_worktree_or_file_root_witness :
    current_project_directory ws0 = none ∧
    first_project_directory ws0 = none :=
  (no_worktree_or_file_root_yields_none ws0 (fun _ _ h => nomatch h)).1 rfl

/-- C4: `AlwaysHome` resolves to `None` on every workspace state, and
`AlwaysFixed(raw)` resolves to `some p` exactly when expanding `raw` succeeds
with `p` and `p` names an existing directory; in particular it is `None`
whenever expansion fails. -/
theorem always_home_and_always_fixed (env : Env) (w : WorkspaceState)
    (raw p : String) :
    resolve_policy env WorkingDirectory.alwaysHome w = none ∧
    (resolve_policy env (WorkingDirectory.always raw) w = some p ↔
      env.shellexpand_full raw = some p ∧ env.path_is_dir p = true) ∧
    (env.shellexpand_full raw = none →
      resolve_policy env (WorkingDirectory.always raw) w = none) := by
  refine ⟨rfl, ?_, ?_⟩
  · show (env.shellexpand_full raw).filter env.path_is_dir = some p ↔ _
    cases hse : env.shellexpand_full raw with
    | none =>
      constructor
      · intro h
        cases h
      · rintro ⟨hqp, _⟩
        cases hqp
    | some q =>
      show (if env.path_is_dir q = true then some q else none) = some p ↔ _
      by_cases hq : env.path_is_dir q = true
      · rw [if_pos hq]
        constructor
        · intro h
          exact ⟨h, (Option.some.inj h) ▸ hq⟩
        · rintro ⟨hqp, _⟩
          exact hqp
      · rw [if_neg hq]
        constructor
        · intro h
          cases h
        · rintro ⟨hqp, hp⟩
          rw [← Option.some.inj hqp] at hp
          exact absurd hp hq
  · intro h
    show (env.shellexpand_full raw).filter env.path_is_dir = none
    rw [h]
    rfl

/-- C4 witness: with identity expansion where `/tmp` exists,
`AlwaysFixed("/tmp")` resolves to `/tmp`, and `AlwaysHome` resolves to
`None`. -/
theorem always_home_and_always_fixed_witness :
    resolve_policy env_exp (WorkingDirectory.always "/tmp") ws0 =
      some "/tmp" ∧
    resolve_policy env_exp WorkingDirectory.alwaysHome ws0 = none :=
  ⟨(always_home_and_always_fixed env_exp ws0 "/tmp" "/tmp").2.1.mpr
      ⟨rfl, by decide⟩,
    (always_home_and_always_fixed env_exp ws0 "/tmp" "/tmp").1⟩

/-- C5: `Wakeup` on a focused view only notifies (state untouched, nothing
emitted); `Wakeup` on an unfocused view sets `has_new_content` and emits
exactly one `TitleChanged`; `Bell` sets `has_bell` and emits `TitleChanged`
regardless of focus; every other typed event is forwarded unchanged. -/
theorem event_bridge_behaviour (v : ConnectedView) (focused : Bool) :
    handle_event v true Event.wakeup = ⟨v, [], true⟩ ∧
    handle_event v false Event.wakeup =
      ⟨{ v with has_new_content := true }, [Event.titleChanged], false⟩ ∧
    handle_event v focused Event.bell =
      ⟨{ v with has_bell := true }, [Event.titleChanged], false⟩ ∧
    handle_event v focused Event.titleChanged =
      ⟨v, [Event.titleChanged], false⟩ ∧
    handle_event v focused Event.activate = ⟨v, [Event.activate], false⟩ ∧
    handle_event v focused Event.closeTerminal =
      ⟨v, [Event.closeTerminal], false⟩ :=
  ⟨rfl, rfl, rfl, rfl, rfl, rfl⟩

/-- C6: focus clears `has_new_content` and leaves `has_bell` unchanged; the
explicit bell acknowledgement clears `has_bell`, leaves `has_new_content`
unchanged, and emits `TitleChanged`. -/
theorem focus_and_clear_bel (v : ConnectedView) :
    (on_focus v).has_new_content = false ∧
    (on_focus v).has_bell = v.has_bell ∧
    (clear_bel v).1.has_bell = false ∧
    (clear_bel v).1.has_new_content = v.has_new_content ∧
    (clear_bel v).2 = [Event.titleChanged] :=
  ⟨rfl, rfl, rfl, rfl, rfl⟩

/-- One step of evolution of the `has_new_content` flag: focus clears it, an
unfocused `Wakeup` sets it, every other step leaves it alone. -/
lemma step_new_content (v : ConnectedView) (s : ViewStep) :
    (v.step s).has_new_content =
      if is_focus s then false
      else v.has_new_content || sets_new_content s := by
  cases s with
  | focus => rfl
  | clearBel => simp [ConnectedView.step, clear_bel, is_focus, sets_new_content]
  | deliver focused e =>
    cases focused <;> cases e <;>
      simp [ConnectedView.step, handle_event, is_focus, sets_new_content]

/-- Running an appended step list runs the pieces in order. -/
lemma run_append (v : ConnectedView) (l1 l2 : List ViewStep) :
    v.run (l1 ++ l2) = (v.run l1).run l2 := by
  simp [ConnectedView.run, List.foldl_append]

/-- Over a focus-free step list, `has_new_content` ends up set exactly if it
started set or some step recorded new content. -/
lemma run_no_focus (v : ConnectedView) (steps : List ViewStep)
    (h : ∀ s ∈ steps, is_focus s = false) :
    (v.run steps).has_new_content =
      (v.has_new_content || steps.any sets_new_content) := by
  induction steps generalizing v with
  | nil => simp [ConnectedView.run]
  | cons s rest ih =>
    have hs : is_focus s = false := h s (by simp)
    have hrest : ∀ x ∈ rest, is_focus x = false :=
      fun x hx => h x (by simp [hx])
    show ((v.step s).run rest).has_new_content = _
    rw [ih (v.step s) hrest, step_new_content, hs]
    simp [List.any_cons, Bool.or_assoc]

/-- C7: after any history ending in a focus followed by focus-free steps,
`has_new_content` holds exactly when an unfocused `Wakeup` arrived after that
focus (so in particular a freshly focused view with no output reports
`false`); and no step other than focus ever clears the flag. -/
theorem new_content_tracks_wakeups (v : ConnectedView)
    (pre post : List ViewStep) (s : ViewStep)
    (hpost : ∀ x ∈ post, is_focus x = false) (hs : is_focus s = false) :
    (v.run (pre ++ ViewStep.focus :: post)).has_new_content =
      post.any sets_new_content ∧
    (v.has_new_content = true → (v.step s).has_new_content = true) := by
  constructor
  · have hsplit : v.run (pre ++ ViewStep.focus :: post) =
        ((v.run pre).step ViewStep.focus).run post := by
      rw [show pre ++ ViewStep.focus :: post =
          (pre ++ [ViewStep.focus]) ++ post by simp, run_append, run_append]
      rfl
    have hfocus : ((v.run pre).step ViewStep.focus).has_new_content = false :=
      rfl
    rw [hsplit, run_no_focus _ post hpost, hfocus]
    simp
  · intro hv
    rw [step_new_content, hs]
    simp [hv]

/-- A freshly connected view over a shell terminal. -/
def cv0 : ConnectedView := ConnectedView.from_terminal ⟨"zsh", none⟩ false

/-- C7 witness: focusing `cv0` and then delivering one unfocused `Wakeup`
sets `has_new_content`; a bell acknowledgement never clears it. -/
theorem new_content_tracks_wakeups_witness :
    (cv0.run ([] ++ ViewStep.focus ::
      [ViewStep.deliver false Event.wakeup])).has_new_content = true ∧
    (cv0.has_new_content = true →
      (cv0.step ViewStep.clearBel).has_new_content = true) :=
  ⟨((new_content_tracks_wakeups cv0 [] [ViewStep.deliver false Event.wakeup]
      ViewStep.clearBel (by decide) rfl).1).trans (by decide),
    (new_content_tracks_wakeups cv0 [] [ViewStep.deliver false Event.wakeup]
      ViewStep.clearBel (by decide) rfl).2⟩

/-- One operation never changes which content variant a view holds. -/
lemma step_preserves_variant (tv : TerminalView) (s : ViewStep) :
    (tv.step s).content.isConnected = tv.content.isConnected := by
  obtain ⟨m, c⟩ := tv
  cases c <;> rfl

/-- A run of operations never changes which content variant a view holds. -/
lemma run_preserves_variant (tv : TerminalView) (steps : List ViewStep) :
    (tv.run steps).content.isConnected = tv.content.isConnected := by
  induction steps generalizing tv with
  | nil => rfl
  | cons s rest ih =>
    exact (ih (tv.step s)).trans (step_preserves_variant tv s)

/-- C8: the content variant chosen at construction (`Connected` on build
success, `Error` on failure) is preserved by every run of operations, and an
`Error` view is never dirty and never signals conflict. -/
theorem variant_fixed_and_error_flags (tv tv2 : TerminalView)
    (steps : List ViewStep) (wd : Option String) (title message : String)
    (modal : Bool) (herr : tv2.content.isConnected = false) :
    (tv.run steps).content.isConnected = tv.content.isConnected ∧
    (TerminalView.new wd (BuildOutcome.success title)
      modal).content.isConnected = true ∧
    (TerminalView.new wd (BuildOutcome.failure message)
      modal).content.isConnected = false ∧
    (tv2.is_dirty = false ∧ tv2.has_conflict = false) := by
  refine ⟨run_preserves_variant tv steps, rfl, rfl, ?_⟩
  obtain ⟨m, c⟩ := tv2
  cases c with
  | connected v => simp [TerminalContent.isConnected] at herr
  | error msg => exact ⟨rfl, rfl⟩

/-- A view whose terminal construction failed. -/
def tv_err : TerminalView :=
  TerminalView.new none (BuildOutcome.failure "spawn failed") false

/-- C8 witness: the error view keeps its variant across a focus step and
reports neither dirtiness nor conflict. -/
theorem variant_fixed_and_error_flags_witness :
    (tv_err.run [ViewStep.focus]).content.isConnected =
      tv_err.content.isConnected ∧
    (tv_err.is_dirty = false ∧ tv_err.has_conflict = false) :=
  ⟨(variant_fixed_and_error_flags tv_err tv_err [ViewStep.focus] none "t" "m"
      false (by decide)).1,
    (variant_fixed_and_error_flags tv_err tv_err [ViewStep.focus] none "t" "m"
      false (by decide)).2.2.2⟩

/-- C9: duplication succeeds exactly on a connected view, spawning the new
view at the original terminal's recorded `associated_directory` (which the
fresh terminal records in turn); on an error view it returns `None`. -/
theorem clone_on_split_directory (tv tv2 : TerminalView) (c : ConnectedView)
    (outcome : BuildOutcome) (title message : String)
    (hc : tv.content = TerminalContent.connected c)
    (he : tv2.content = TerminalContent.error message) :
    tv.clone_on_split outcome =
      some (TerminalView.new c.terminal.associated_directory outcome false) ∧
    (TerminalView.new c.terminal.associated_directory
        (BuildOutcome.success title) false).content =
      TerminalContent.connected
        (ConnectedView.from_terminal
          ⟨title, c.terminal.associated_directory⟩ false) ∧
    tv2.clone_on_split outcome = none := by
  refine ⟨?_, rfl, ?_⟩
  · obtain ⟨m, cc⟩ := tv
    cases cc with
    | connected v => cases hc; rfl
    | error msg => cases hc
  · obtain ⟨m, cc⟩ := tv2
    cases cc with
    | connected v => cases he
    | error msg => cases he; rfl

/-- A successfully connected view spawned at `/root1/`. -/
def tv_conn : TerminalView :=
  TerminalView.new (some "/root1/") (BuildOutcome.success "zsh") false

/-- C9 witness: duplicating the connected view spawns at its recorded
`/root1/`; duplicating the error view yields `None`. -/
theorem clone_on_split_directory_witness :
    tv_conn.clone_on_split (BuildOutcome.success "zsh2") =
      some (TerminalView.new (some "/root1/")
        (BuildOutcome.success "zsh2") false) ∧
    tv_err.clone_on_split (BuildOutcome.success "zsh2") = none :=
  ⟨(clone_on_split_directory tv_conn tv_err
      (ConnectedView.from_terminal ⟨"zsh", some "/root1/"⟩ false)
      (BuildOutcome.success "zsh2") "t" "spawn failed" rfl rfl).1,
    (clone_on_split_directory tv_conn tv_err
      (ConnectedView.from_terminal ⟨"zsh", some "/root1/"⟩ false)
      (BuildOutcome.success "zsh2") "t" "spawn failed" rfl rfl).2.2⟩

/-- C10: on every view and state, save and save-as abort with an
`unreachable!` contract violation (never a silent success), reload completes
with `Ok`, and is-singleton is always `false`. -/
theorem save_reload_singleton_contract (tv : TerminalView) :
    tv.save =
      TaskResult.unreachableViolation "save should not have been called" ∧
    tv.save_as =
      TaskResult.unreachableViolation "save_as should not have been called" ∧
    tv.save ≠ TaskResult.ok ∧
    tv.save_as ≠ TaskResult.ok ∧
    tv.reload = TaskResult.ok ∧
    tv.is_singleton = false := by
  refine ⟨rfl, rfl, ?_, ?_, rfl, rfl⟩
  · intro h
    exact TaskResult.noConfusion h
  · intro h
    exact TaskResult.noConfusion h

/-- C10 witness: the contract points evaluated on the error view. -/
theorem save_reload_singleton_contract_witness :
    tv_err.save =
      TaskResult.unreachableViolation "save should not have been called" ∧
    tv_err.reload = TaskResult.ok ∧
    tv_err.is_singleton = false :=
  ⟨(save_reload_singleton_contract tv_err).1,
    (save_reload_singleton_contract tv_err).2.2.2.2.1,
    (save_reload_singleton_contract tv_err).2.2.2.2.2⟩

end Terminal
